import Mathlib

/-!
# Verification of the dancebot catalogue/navigation bot

Shallow embedding of `src/bot.py` and `src/config.py`.

The bot serves a two-level catalogue (programs → figures) over a chat
transport.  Handlers receive the shared relational store (modelled as an
explicit `Store` value), perform reads/writes on it, and emit a list of
transport actions (send a message, edit the current message, answer the
callback).  All SQL queries of `bot.py` are translated into pure functions
over `Store`.
-/

namespace DanceBot

/-- A chat-transport user identity, the fields of `aiogram.types.User` that
`bot.py` reads (`id`, `username`, `first_name`, `last_name`). -/
structure TgUser where
  id : Int
  username : Option String
  first_name : Option String
  last_name : Option String
  deriving DecidableEq, Repr

/-- A row of `public.users`.  `bot.py` reads only `telegram_id` and
`is_admin`; `subscribed` models the subscription flag that the users table
carries (mentioned by the admin screen text) but that no handler consults. -/
structure UserRow where
  telegram_id : Int
  username : Option String
  first_name : Option String
  last_name : Option String
  is_admin : Bool
  subscribed : Bool
  deriving DecidableEq, Repr

/-- A row of `public.programs` (`id`, `code`, `name`). -/
structure ProgramRow where
  id : Int
  code : String
  name : String
  deriving DecidableEq, Repr

/-- A row of `public.figures` (`id`, `code`, `name`, `program_id`,
nullable `description`). -/
structure FigureRow where
  id : Int
  code : String
  name : String
  program_id : Int
  description : Option String
  deriving DecidableEq, Repr

/-- The record returned by the join in `fetch_figure` (figure columns plus
`p.name as program_name`). -/
structure FigureDetail where
  id : Int
  code : String
  name : String
  program_id : Int
  program_name : String
  description : Option String
  deriving DecidableEq, Repr

/-- The relational store.  `grants` models an access-grant table
(`user_id`, `figure_id`) pairs; `bot.py` never reads or writes it, it is
carried so that claims about quota consumption can be stated. -/
structure Store where
  programs : List ProgramRow
  figures : List FigureRow
  users : List UserRow
  grants : List (Int × Int)
  deriving DecidableEq, Repr

/-- An inline keyboard button: a label plus either a callback payload or a
URL (`aiogram.types.InlineKeyboardButton`). -/
structure InlineKeyboardButton where
  text : String
  callback_data : Option String
  url : Option String
  deriving DecidableEq, Repr

/-- An inline keyboard: rows of buttons. -/
abbrev Kb := List (List InlineKeyboardButton)

/-- The transport actions a handler can emit. -/
inductive Action where
  /-- Transport call `message.answer(text, reply_markup=kb)` — a fresh message. -/
  | sendMessage (text : String) (kb : Option Kb)
  /-- Transport call `callback.message.edit_text(text, reply_markup=kb)` — edit in place. -/
  | editText (text : String) (kb : Option Kb)
  /-- Transport call `callback.answer(text, show_alert=flag)` — transient acknowledgment. -/
  | answerCb (text : Option String) (show_alert : Bool)
  deriving DecidableEq, Repr

/-- The screen currently displayed to the user. -/
structure Screen where
  text : String
  kb : Option Kb
  deriving DecidableEq, Repr

/-- Effect of one action on the displayed screen: sending or editing a
message replaces what the user sees; a callback answer is transient and
changes nothing. -/
def applyAction (scr : Screen) : Action → Screen
  | Action.sendMessage t k => ⟨t, k⟩
  | Action.editText t k => ⟨t, k⟩
  | Action.answerCb _ _ => scr

/-- Effect of the action list of a handler on the displayed screen. -/
def applyActions (scr : Screen) (as : List Action) : Screen :=
  as.foldl applyAction scr

/-- Number of access-grant records held by user `uid`. -/
def grantCount (s : Store) (uid : Int) : Nat :=
  (s.grants.filter (fun g => g.fst == uid)).length

/-! ## Store queries (`bot.py` lines 35–104) -/

/-- Model of `get_or_create_user`: look up `public.users` by `telegram_id`; if
absent, insert a fresh row (store defaults: `is_admin`/`subscribed` false)
and return it. -/
def get_or_create_user (s : Store) (tg : TgUser) : Store × UserRow :=
  match s.users.find? (fun u => u.telegram_id == tg.id) with
  | some row => (s, row)
  | none =>
    let row : UserRow :=
      ⟨tg.id, tg.username, tg.first_name, tg.last_name, false, false⟩
    ({ s with users := s.users ++ [row] }, row)

/-- The comparison used by `order by id` on programs. -/
def progIdLe (a b : ProgramRow) : Prop := a.id ≤ b.id

instance : DecidableRel progIdLe :=
  fun a b => inferInstanceAs (Decidable (a.id ≤ b.id))

instance : IsTotal ProgramRow progIdLe := ⟨fun a b => le_total a.id b.id⟩

instance : IsTrans ProgramRow progIdLe :=
  ⟨fun _ _ _ h1 h2 => le_trans h1 h2⟩

/-- The comparison used by `order by id` on figures. -/
def figIdLe (a b : FigureRow) : Prop := a.id ≤ b.id

instance : DecidableRel figIdLe :=
  fun a b => inferInstanceAs (Decidable (a.id ≤ b.id))

instance : IsTotal FigureRow figIdLe := ⟨fun a b => le_total a.id b.id⟩

instance : IsTrans FigureRow figIdLe :=
  ⟨fun _ _ _ h1 h2 => le_trans h1 h2⟩

/-- Model of `fetch_programs`: `select id, code, name from public.programs order by id`. -/
def fetch_programs (s : Store) : List ProgramRow :=
  List.insertionSort progIdLe s.programs

/-- Model of `fetch_figures`: `select id, code, name from public.figures where
program_id = $1 order by id`. -/
def fetch_figures (s : Store) (program_id : Int) : List FigureRow :=
  List.insertionSort figIdLe (s.figures.filter (fun f => f.program_id == program_id))

/-- Model of `fetch_figure`: single row of `figures f join programs p on
p.id = f.program_id where f.id = $1`; `none` when the figure id does not
resolve (or its program is gone, since the join is inner). -/
def fetch_figure (s : Store) (figure_id : Int) : Option FigureDetail :=
  match s.figures.find? (fun f => f.id == figure_id) with
  | none => none
  | some f =>
    match s.programs.find? (fun p => p.id == f.program_id) with
    | none => none
    | some p => some ⟨f.id, f.code, f.name, f.program_id, p.name, f.description⟩

/-! ## Keyboards (`bot.py` lines 107–159) -/

/-- Model of `build_main_menu_kb`: one button per program, then the Buy row, the
About row, and — only for admins — the Admin row. -/
def build_main_menu_kb (programs : List ProgramRow) (is_admin : Bool) : Kb :=
  (programs.map (fun p =>
    [InlineKeyboardButton.mk p.name (some ("program:" ++ toString p.id)) none]))
  ++ [[InlineKeyboardButton.mk "💳 Купить полный доступ" (some "buy") none]]
  ++ [[InlineKeyboardButton.mk "ℹ️ О боте" (some "about") none]]
  ++ (if is_admin then
        [[InlineKeyboardButton.mk "⚙️ Админка" (some "admin") none]]
      else [])

/-- Model of `build_figures_kb`: one button per figure, then a back-to-programs row.
(The `program_id` argument is accepted but unused, as in the source.) -/
def build_figures_kb (figures : List FigureRow) (program_id : Int) : Kb :=
  (figures.map (fun f =>
    [InlineKeyboardButton.mk f.name (some ("figure:" ++ toString f.id)) none]))
  ++ [[InlineKeyboardButton.mk "⬅️ Назад к программам" (some "back:programs") none]]

/-! ## Handlers (`bot.py` lines 162–348) -/

/-- Model of `cmd_start`: upsert the user; if the catalogue is empty reply with the
empty-catalogue notice and no keyboard, otherwise the program menu. -/
def cmd_start (s : Store) (tg : TgUser) : Store × List Action :=
  let res := get_or_create_user s tg
  let programs := fetch_programs res.fst
  if programs.isEmpty then
    (res.fst,
      [Action.sendMessage
        ("Привет! 👋\n\nПока в базе нет ни одной программы.\nДобавь их через админку Supabase в таблицу *programs*.")
        none])
  else
    (res.fst,
      [Action.sendMessage "Выбери программу (танец):"
        (some (build_main_menu_kb programs res.snd.is_admin))])

/-- Model of `cmd_menu`: upsert the user and show the main menu unconditionally. -/
def cmd_menu (s : Store) (tg : TgUser) : Store × List Action :=
  let res := get_or_create_user s tg
  let programs := fetch_programs res.fst
  (res.fst,
    [Action.sendMessage "Главное меню:"
      (some (build_main_menu_kb programs res.snd.is_admin))])

/-- Model of `cb_back_programs`: handler for the exact payload `"back:programs"`;
re-renders the program menu in place. -/
def cb_back_programs (s : Store) (tg : TgUser) : Store × List Action :=
  let res := get_or_create_user s tg
  let programs := fetch_programs res.fst
  (res.fst,
    [Action.editText "Выбери программу (танец):"
      (some (build_main_menu_kb programs res.snd.is_admin)),
     Action.answerCb none false])

/-- Model of `cb_program` after its `int(...)` parse: list the figures of a program,
or an empty notice with the keyboard removed. -/
def cb_program (s : Store) (program_id : Int) : Store × List Action :=
  let figures := fetch_figures s program_id
  if figures.isEmpty then
    (s,
      [Action.editText
        "Для этой программы пока нет фигур.\nДобавь их в Supabase в таблицу *figures*."
        none,
       Action.answerCb none false])
  else
    (s,
      [Action.editText "Выбери фигуру:" (some (build_figures_kb figures program_id)),
       Action.answerCb none false])

/-- Python truthiness of an optional string (`if x:`): `None` and the
empty string are falsy.  Used for the nullable `description` column and for
the environment variables read by `config.py`. -/
def pyTruthy : Option String → Bool
  | none => false
  | some d => !d.isEmpty

/-- Model of `cb_figure` after its `int(...)` parse: resolve the figure; on failure
answer with a transient alert and stop; otherwise edit in the detail text
(header plus description or placeholder) with its keyboard. -/
def cb_figure (s : Store) (figure_id : Int) : Store × List Action :=
  match fetch_figure s figure_id with
  | none => (s, [Action.answerCb (some "Фигура не найдена") true])
  | some row =>
    let text :=
      "*" ++ row.name ++ "* (`" ++ row.code ++ "`)\n" ++
      "_Программа_: " ++ row.program_name ++ "\n\n"
    let text :=
      if pyTruthy row.description then
        text ++ row.description.getD ""
      else
        text ++ "Описание техники ещё не добавлено. Позже здесь будет подробный разбор по Лейрду."
    let kb : Kb :=
      [[InlineKeyboardButton.mk "⬅️ К списку фигур"
          (some ("program:" ++ toString row.program_id)) none],
       [InlineKeyboardButton.mk "💳 Купить полный доступ" (some "buy") none]]
    (s, [Action.editText text (some kb), Action.answerCb none false])

/-- Model of `cb_buy`: static subscription screen. -/
def cb_buy (s : Store) : Store × List Action :=
  let kb : Kb :=
    [[InlineKeyboardButton.mk "Написать @glebyshkaone" none (some "https://t.me/glebyshkaone")],
     [InlineKeyboardButton.mk "⬅️ В главное меню" (some "back:programs") none]]
  let text :=
    "💳 *Подписка на бот*\n\nДоступ ко всем фигурам и авторам — *500 ₽ в месяц*.\n\nОплата и активация доступа — через @glebyshkaone.\n"
  (s, [Action.editText text (some kb), Action.answerCb none false])

/-- Model of `cb_about`: static about screen. -/
def cb_about (s : Store) : Store × List Action :=
  let text :=
    "Этот бот — конспект по латиноамериканским танцам на основе книги\n*“The Laird Technique of Latin Dancing” — Walter Laird*.\n\nЗдесь будут:\n• структуры фигур по танцам\n• техника и ключевые акценты\n• сравнение трактовок разных авторов (в будущем)\n\nСейчас база пополняется. Если хочешь предложить идеи — пиши @glebyshkaone."
  let kb : Kb :=
    [[InlineKeyboardButton.mk "⬅️ В главное меню" (some "back:programs") none]]
  (s, [Action.editText text (some kb), Action.answerCb none false])

/-- Model of `cb_admin`: alert for non-admins, otherwise the admin panel text. -/
def cb_admin (s : Store) (tg : TgUser) : Store × List Action :=
  let res := get_or_create_user s tg
  if !res.snd.is_admin then
    (res.fst, [Action.answerCb (some "У тебя нет прав администратора.") true])
  else
    let text :=
      "⚙️ *Админка*\n\nПока всё управление через Supabase:\n• Таблица `programs` — добавление/редактирование программ\n• Таблица `figures` — фигуры по каждой программе\n• Таблица `users` — флаг is_admin, подписка и т.д.\n\nПозже можно будет вынести добавление фигур прямо в бот."
    let kb : Kb :=
      [[InlineKeyboardButton.mk "⬅️ В главное меню" (some "back:programs") none]]
    (res.fst, [Action.editText text (some kb), Action.answerCb none false])

/-- Model of `data.split(":", 1)[1]` — everything after the first colon. -/
def afterFirstColon (data : String) : String :=
  match data.splitOn ":" with
  | [] => ""
  | _ :: rest => String.intercalate ":" rest

/-- Model of `s.startswith(pre)` on payload strings (structural model of the
aiogram `F.data.startswith` filter). -/
def hasPayloadShape (pre s : String) : Bool :=
  List.isPrefixOf pre.data s.data

/-- Outcome of dispatching a callback payload. -/
inductive CbOutcome where
  /-- Some registered handler matched and ran. -/
  | handled (result : Store × List Action)
  /-- A handler matched but `int(...)` raised on the id segment; aiogram
  logs the exception and nothing is rendered or answered. -/
  | crashed
  /-- No registered handler matches this payload; nothing happens. -/
  | unhandled
  deriving DecidableEq, Repr

/-- The callback dispatch table, in registration order (`bot.py` lines
188–348): exact `"back:programs"`, then the `program:`/`figure:` payload
shapes, then the exact `"buy"`, `"about"`, `"admin"`. -/
def dispatch_callback (s : Store) (tg : TgUser) (data : String) : CbOutcome :=
  if data == "back:programs" then
    CbOutcome.handled (cb_back_programs s tg)
  else if hasPayloadShape "program:" data then
    match (afterFirstColon data).toInt? with
    | some pid => CbOutcome.handled (cb_program s pid)
    | none => CbOutcome.crashed
  else if hasPayloadShape "figure:" data then
    match (afterFirstColon data).toInt? with
    | some fid => CbOutcome.handled (cb_figure s fid)
    | none => CbOutcome.crashed
  else if data == "buy" then
    CbOutcome.handled (cb_buy s)
  else if data == "about" then
    CbOutcome.handled (cb_about s)
  else if data == "admin" then
    CbOutcome.handled (cb_admin s tg)
  else
    CbOutcome.unhandled

/-- The text of the first `edit_text` action in a output of a handler — the
content the user ends up reading — if any. -/
def firstEditText : List Action → Option String
  | [] => none
  | Action.editText t _ :: _ => some t
  | _ :: rest => firstEditText rest

/-! ## Configuration (`src/config.py`) -/

/-- The characters allowed in a URL scheme by `urllib.parse`
(letters, digits, `+`, `-`, `.`). -/
def isSchemeChar (c : Char) : Bool :=
  c.isAlpha || c.isDigit || c == '+' || c == '-' || c == '.'

/-- The characters of `url` before its first `:`; `none` when the URL has
no colon at all. -/
def schemeChunk : List Char → Option (List Char)
  | [] => none
  | c :: cs => if c = ':' then some [] else (schemeChunk cs).map (fun pre => c :: pre)

/-- Model of `urllib.parse.urlparse(url).scheme`: the part before the first colon,
lowercased, provided the colon is not at position 0, the first character is
a letter and every character is a scheme character; `""` otherwise. -/
def urlparse_scheme (url : String) : String :=
  match schemeChunk url.data with
  | none => ""
  | some [] => ""
  | some (c :: pre) =>
    if c.isAlpha && (c :: pre).all isSchemeChar then
      String.mk ((c :: pre).map Char.toLower)
    else ""

/-- Whether the DSN scheme is one `config.py` accepts. -/
def recognizedScheme (url : String) : Bool :=
  urlparse_scheme url == "postgres" || urlparse_scheme url == "postgresql"

/-- Model of the function validating the DSN in `config.py`: missing/empty DSN, or a DSN
whose scheme is not `postgres`/`postgresql`, raises `ValueError`; an
accepted DSN is returned unchanged. -/
def validate_database_url (raw_url : Option String) : Except String String :=
  if pyTruthy raw_url = false then
    Except.error "DATABASE_URL is missing! Set it in Railway → Variables."
  else
    let raw := raw_url.getD ""
    if recognizedScheme raw then
      Except.ok raw
    else if urlparse_scheme raw == "https" then
      Except.error "DATABASE_URL looks like an HTTPS URL (e.g. Supabase project URL). Use the Postgres connection string from Supabase → Settings → Connection string → URI that starts with postgres:// or postgresql://."
    else
      Except.error ("DATABASE_URL must start with postgres:// or postgresql:// (got: "
        ++ (if urlparse_scheme raw == "" then "no scheme" else urlparse_scheme raw) ++ ").")

/-- The configuration values the process starts with. -/
structure Config where
  bot_token : String
  database_url : String
  deriving DecidableEq, Repr

/-- Module-level execution of `config.py` on the two environment
variables the claims are about: `DATABASE_URL` is validated first
(line 37), then the `BOT_TOKEN` presence check runs (line 47); any error
aborts startup. -/
def load_config (bot_token database_url : Option String) : Except String Config :=
  match validate_database_url database_url with
  | Except.error e => Except.error e
  | Except.ok url =>
    if pyTruthy bot_token = false then
      Except.error "BOT_TOKEN is missing! Set it in Railway → Variables."
    else
      Except.ok ⟨bot_token.getD "", url⟩

/-! ## Spec-side definitions

These follow the words of the spec, not the source; they exist to be compared
with the source-derived definitions above. -/

/-- Structural lexicographic comparison of char lists (byte-wise string
order, as SQL `order by name` would impose on the name column). -/
def charsLe : List Char → List Char → Bool
  | [], _ => true
  | _ :: _, [] => false
  | a :: as, b :: bs =>
    if a.val < b.val then true
    else if b.val < a.val then false
    else charsLe as bs

/-- Spec-side predicate for claim C4: the fetched program list is ordered
by the `name` field. -/
def sortedByName (l : List ProgramRow) : Prop :=
  List.Pairwise (fun a b => charsLe a.name.data b.name.data = true) l

instance (l : List ProgramRow) : Decidable (sortedByName l) :=
  inferInstanceAs (Decidable (List.Pairwise _ l))

/-! ## Concrete fixtures for counterexamples and witnesses -/

/-- A store with nothing in it. -/
def emptyStore : Store := ⟨[], [], [], []⟩

/-- A chat user with id 100 and no profile fields. -/
def tgUser100 : TgUser := ⟨100, none, none, none⟩

/-- User row for id 100: not an admin, not subscribed. -/
def userRow100 : UserRow := ⟨100, none, none, none, false, false⟩

/-- C1 fixture: a non-subscribed user who already holds grants on the five
distinct figures 1–5, and a sixth figure (id 6) they never opened. -/
def c1Store : Store :=
  { programs := [⟨10, "st", "Самба"⟩],
    figures :=
      [⟨1, "f1", "Фигура 1", 10, some "Техника 1"⟩,
       ⟨2, "f2", "Фигура 2", 10, some "Техника 2"⟩,
       ⟨3, "f3", "Фигура 3", 10, some "Техника 3"⟩,
       ⟨4, "f4", "Фигура 4", 10, some "Техника 4"⟩,
       ⟨5, "f5", "Фигура 5", 10, some "Техника 5"⟩,
       ⟨6, "f6", "Фигура 6", 10, some "Техника 6"⟩],
    users := [userRow100],
    grants := [(100, 1), (100, 2), (100, 3), (100, 4), (100, 5)] }

/-- C2 fixture: a non-subscribed user with no grants yet and one figure. -/
def c2Store : Store :=
  { programs := [⟨10, "st", "Самба"⟩],
    figures := [⟨1, "f1", "Фигура 1", 10, some "Техника 1"⟩],
    users := [userRow100],
    grants := [] }

/-- A 4000-character description, longer than the claimed 3900-character cap. -/
def longDesc : String := String.mk (List.replicate 4000 'a')

/-- C3 fixture: one figure whose description alone exceeds 3900 characters. -/
def c3Store : Store :=
  { programs := [⟨10, "st", "Самба"⟩],
    figures := [⟨1, "f1", "Фигура 1", 10, some longDesc⟩],
    users := [],
    grants := [] }

/-- The joined detail record the C3 fixture resolves to. -/
def c3Row : FigureDetail := ⟨1, "f1", "Фигура 1", 10, "Самба", some longDesc⟩

/-- C4 fixture: two programs whose id order is the reverse of their name
order. -/
def c4Store : Store :=
  { programs := [⟨1, "b", "B"⟩, ⟨2, "a", "A"⟩],
    figures := [],
    users := [],
    grants := [] }

/-- C5 fixture: a store reached after some browsing (one grant recorded). -/
def c5StoreA : Store :=
  { programs := [⟨10, "st", "Самба"⟩],
    figures := [⟨1, "f1", "Фигура 1", 10, some "Техника 1"⟩],
    users := [userRow100],
    grants := [(100, 1)] }

/-- C5 fixture: same programs as `c5StoreA` but a different history — no
user row yet and no grants. -/
def c5StoreB : Store :=
  { programs := [⟨10, "st", "Самба"⟩],
    figures := [],
    users := [],
    grants := [] }

/-- C9 fixture: a figure whose `description` is null. -/
def c9Store : Store :=
  { programs := [⟨10, "st", "Самба"⟩],
    figures := [⟨1, "f1", "Фигура 1", 10, none⟩],
    users := [],
    grants := [] }

/-! ## Helper lemmas -/

/-- Upserting a user leaves the program table unchanged. -/
theorem get_or_create_user_programs (s : Store) (tg : TgUser) :
    ((get_or_create_user s tg).fst).programs = s.programs := by
  unfold get_or_create_user
  cases s.users.find? (fun u => u.telegram_id == tg.id) <;> rfl

/-- Upserting a user leaves the grant table unchanged. -/
theorem get_or_create_user_grants (s : Store) (tg : TgUser) :
    ((get_or_create_user s tg).fst).grants = s.grants := by
  unfold get_or_create_user
  cases s.users.find? (fun u => u.telegram_id == tg.id) <;> rfl

/-- Handler `cb_figure` performs only reads: the store it returns is the store it
was given, in both the not-found and the rendering branch. -/
theorem cb_figure_fst (s : Store) (fid : Int) : (cb_figure s fid).fst = s := by
  unfold cb_figure
  cases fetch_figure s fid <;> rfl

/-- The 4000-character fixture description really has 4000 characters. -/
theorem longDesc_length : longDesc.length = 4000 := by
  unfold longDesc
  rw [String.length_mk, List.length_replicate]

/-- The 4000-character fixture description is not the empty string. -/
theorem longDesc_isEmpty : longDesc.isEmpty = false := by
  cases hE : longDesc.isEmpty
  · rfl
  · exfalso
    have h2 := (String.isEmpty_iff longDesc).mp hE
    have h3 := congrArg String.length h2
    rw [longDesc_length] at h3
    exact absurd h3 (by decide)

/-- The 4000-character fixture description is truthy. -/
theorem longDesc_truthy : pyTruthy (some longDesc) = true := by
  simp [pyTruthy, longDesc_isEmpty]

/-- DSN validation succeeds exactly on a truthy DSN with a recognized
scheme. -/
theorem validate_isOk (du : Option String) :
    (validate_database_url du).isOk = (pyTruthy du && recognizedScheme (du.getD "")) := by
  cases du with
  | none => simp [validate_database_url, pyTruthy, Except.isOk, Except.toBool]
  | some u =>
    cases hu : pyTruthy (some u) with
    | false => simp [validate_database_url, hu, Except.isOk, Except.toBool]
    | true =>
      cases hr : recognizedScheme u with
      | true => simp [validate_database_url, hu, hr, Except.isOk, Except.toBool]
      | false =>
        by_cases hh : urlparse_scheme u = "https"
        · simp [validate_database_url, hu, hr, hh, Except.isOk, Except.toBool]
        · simp [validate_database_url, hu, hr, hh, Except.isOk, Except.toBool]

/-- Startup succeeds exactly when DSN validation succeeds and the bot
credential is truthy. -/
theorem load_config_isOk_aux (bt du : Option String) :
    (load_config bt du).isOk = ((validate_database_url du).isOk && pyTruthy bt) := by
  unfold load_config
  cases validate_database_url du with
  | error e => simp [Except.isOk, Except.toBool]
  | ok url => cases hb : pyTruthy bt <;> simp [hb, Except.isOk, Except.toBool]

/-- A program-selection payload is never the admin payload. -/
theorem program_token_ne_admin (t : String) : ("program:" ++ t) ≠ "admin" := by
  intro h
  have hl := congrArg String.length h
  rw [String.length_append] at hl
  have h8 : String.length "program:" = 8 := rfl
  have h5 : String.length "admin" = 5 := rfl
  rw [h8, h5] at hl
  omega

/-! ## Claim theorems -/

/-- Claim C2 (amended): the figure handler never touches the grant table —
after opening the same figure twice (or any number of times) the count of
access-grant records of every user is unchanged, not increased by 1. -/
theorem cb_figure_quota_untouched (s : Store) (fid uid : Int) :
    grantCount (cb_figure (cb_figure s fid).fst fid).fst uid = grantCount s uid ∧
    ((cb_figure s fid).fst).grants = s.grants := by
  rw [cb_figure_fst, cb_figure_fst]
  exact ⟨rfl, rfl⟩

/-- Claim C2 counterexample: a non-subscribed user opens figure 1 twice
from a store with no grants; the grant count stays at its old value and in
particular does not increase by exactly 1 as claimed. -/
theorem c2_reopen_no_grant_cex :
    grantCount (cb_figure (cb_figure c2Store 1).fst 1).fst 100 = grantCount c2Store 100 ∧
    ¬ (grantCount (cb_figure (cb_figure c2Store 1).fst 1).fst 100 = grantCount c2Store 100 + 1) := by
  decide

/-- Claim C4 (amended): the program-list fetch returns every program of
the store, ordered by the `id` field (the query is `order by id`), not by
name. -/
theorem fetch_programs_ordered_by_id (s : Store) :
    (fetch_programs s).Perm s.programs ∧ List.Sorted progIdLe (fetch_programs s) :=
  ⟨List.perm_insertionSort progIdLe s.programs, List.sorted_insertionSort progIdLe s.programs⟩

/-- Claim C4 counterexample: with two programs whose id order reverses
their name order, the fetched list comes back in id order `["B", "A"]`,
which is not ordered by name. -/
theorem c4_order_by_name_cex :
    (fetch_programs c4Store).map ProgramRow.name = ["B", "A"] ∧
    ¬ sortedByName (fetch_programs c4Store) := by
  decide

/-- Claim C6: when the figure id of a selection token does not resolve,
the handler answers with a transient alert (`show_alert=True`), edits
nothing, changes no store row, and the displayed screen stays exactly as
it was. -/
theorem cb_figure_unresolved_id_alert (s : Store) (fid : Int)
    (h : fetch_figure s fid = none) :
    cb_figure s fid = (s, [Action.answerCb (some "Фигура не найдена") true]) ∧
    ∀ scr : Screen, applyActions scr (cb_figure s fid).snd = scr := by
  have hc : cb_figure s fid = (s, [Action.answerCb (some "Фигура не найдена") true]) := by
    unfold cb_figure
    rw [h]
  refine ⟨hc, fun scr => ?_⟩
  rw [hc]
  rfl

/-- Claim C6 witness: figure id 1 in the empty store. -/
theorem cb_figure_unresolved_id_alert_witness :
    fetch_figure emptyStore 1 = none ∧
    (cb_figure emptyStore 1 = (emptyStore, [Action.answerCb (some "Фигура не найдена") true]) ∧
     ∀ scr : Screen, applyActions scr (cb_figure emptyStore 1).snd = scr) :=
  ⟨rfl, cb_figure_unresolved_id_alert emptyStore 1 rfl⟩

/-- Claim C7: with an empty program table, `/start` replies with the
empty-catalogue notice and attaches no keyboard at all. -/
theorem cmd_start_empty_catalogue (s : Store) (tg : TgUser)
    (h : s.programs = []) :
    (cmd_start s tg).snd =
      [Action.sendMessage
        "Привет! 👋\n\nПока в базе нет ни одной программы.\nДобавь их через админку Supabase в таблицу *programs*."
        none] := by
  have hp : fetch_programs (get_or_create_user s tg).fst = [] := by
    unfold fetch_programs
    rw [get_or_create_user_programs, h]
    rfl
  unfold cmd_start
  simp [hp]

/-- Claim C7 witness: `/start` from user 100 against the empty store. -/
theorem cmd_start_empty_catalogue_witness :
    emptyStore.programs = [] ∧
    (cmd_start emptyStore tgUser100).snd =
      [Action.sendMessage
        "Привет! 👋\n\nПока в базе нет ни одной программы.\nДобавь их через админку Supabase в таблицу *programs*."
        none] :=
  ⟨rfl, cmd_start_empty_catalogue emptyStore tgUser100 rfl⟩

/-- Claim C1 (amended): the figure handler consults no entitlement gate —
for every store and every figure id that resolves, it renders the figure
content (an in-place edit followed by a silent, non-alert callback answer)
and leaves the store, including every grant record, untouched; no denial
or upsell notice is ever produced for a resolvable figure, whatever the
subscription state of the user or number of previously opened figures. -/
theorem cb_figure_renders_without_gate (s : Store) (fid : Int) (row : FigureDetail)
    (h : fetch_figure s fid = some row) :
    (∃ t kb, (cb_figure s fid).snd = [Action.editText t (some kb), Action.answerCb none false]) ∧
    (cb_figure s fid).fst = s := by
  unfold cb_figure
  rw [h]
  exact ⟨⟨_, _, rfl⟩, rfl⟩

/-- Claim C1 witness: the resolvable sixth figure of the C1 fixture. -/
theorem cb_figure_renders_without_gate_witness :
    fetch_figure c1Store 6 = some ⟨6, "f6", "Фигура 6", 10, "Самба", some "Техника 6"⟩ ∧
    ((∃ t kb, (cb_figure c1Store 6).snd = [Action.editText t (some kb), Action.answerCb none false]) ∧
     (cb_figure c1Store 6).fst = c1Store) :=
  ⟨rfl, cb_figure_renders_without_gate c1Store 6
    ⟨6, "f6", "Фигура 6", 10, "Самба", some "Техника 6"⟩ rfl⟩

/-- Claim C1 counterexample: a non-subscribed user holding exactly 5
distinct grants requests a 6th distinct figure; the handler renders the
content of the figure (its description, with the normal navigation keyboard)
instead of any denial, and writes no grant. -/
theorem c1_six_figures_rendered_cex :
    userRow100.subscribed = false ∧
    grantCount c1Store 100 = 5 ∧
    ¬ ((100, 6) ∈ c1Store.grants) ∧
    (cb_figure c1Store 6).snd =
      [Action.editText "*Фигура 6* (`f6`)\n_Программа_: Самба\n\nТехника 6"
         (some [[InlineKeyboardButton.mk "⬅️ К списку фигур" (some "program:10") none],
                [InlineKeyboardButton.mk "💳 Купить полный доступ" (some "buy") none]]),
       Action.answerCb none false] ∧
    ((cb_figure c1Store 6).fst).grants = c1Store.grants := by
  refine ⟨rfl, by decide, by decide, by decide, rfl⟩

/-- Claim C3 (amended): no truncation is applied anywhere — the detail
text the handler sends is always the full rendering, header plus the whole
description, so a text of at most 3900 characters is sent unmodified and a
longer one is sent over-length, with no marker appended. -/
theorem cb_figure_full_text_sent (s : Store) (fid : Int) (row : FigureDetail)
    (h : fetch_figure s fid = some row) (hd : pyTruthy row.description = true) :
    firstEditText (cb_figure s fid).snd =
      some (("*" ++ row.name ++ "* (`" ++ row.code ++ "`)\n" ++
             "_Программа_: " ++ row.program_name ++ "\n\n") ++ row.description.getD "") ∧
    ((firstEditText (cb_figure s fid).snd).getD "").length =
      ("*" ++ row.name ++ "* (`" ++ row.code ++ "`)\n" ++
       "_Программа_: " ++ row.program_name ++ "\n\n").length + (row.description.getD "").length := by
  have h1 : firstEditText (cb_figure s fid).snd =
      some (("*" ++ row.name ++ "* (`" ++ row.code ++ "`)\n" ++
             "_Программа_: " ++ row.program_name ++ "\n\n") ++ row.description.getD "") := by
    unfold cb_figure
    rw [h]
    simp [hd, firstEditText]
  refine ⟨h1, ?_⟩
  rw [h1]
  simp [String.length_append]

/-- Claim C3 witness: the 4000-character description fixture. -/
theorem cb_figure_full_text_sent_witness :
    fetch_figure c3Store 1 = some c3Row ∧
    pyTruthy c3Row.description = true ∧
    (firstEditText (cb_figure c3Store 1).snd =
      some (("*" ++ c3Row.name ++ "* (`" ++ c3Row.code ++ "`)\n" ++
             "_Программа_: " ++ c3Row.program_name ++ "\n\n") ++ c3Row.description.getD "") ∧
     ((firstEditText (cb_figure c3Store 1).snd).getD "").length =
      ("*" ++ c3Row.name ++ "* (`" ++ c3Row.code ++ "`)\n" ++
       "_Программа_: " ++ c3Row.program_name ++ "\n\n").length + (c3Row.description.getD "").length) :=
  ⟨rfl, longDesc_truthy,
   cb_figure_full_text_sent c3Store 1 c3Row rfl longDesc_truthy⟩

/-- Claim C3 counterexample: the rendered detail text of the 4000-character
description is sent with more than 3900 characters — it is not cut to the
claimed 3900-character maximum. -/
theorem c3_over_length_sent_cex :
    3900 < ((firstEditText (cb_figure c3Store 1).snd).getD "").length := by
  have h1 : fetch_figure c3Store 1 = some c3Row := rfl
  have h2 : firstEditText (cb_figure c3Store 1).snd =
      some (("*" ++ c3Row.name ++ "* (`" ++ c3Row.code ++ "`)\n" ++
             "_Программа_: " ++ c3Row.program_name ++ "\n\n") ++ c3Row.description.getD "") := by
    unfold cb_figure
    rw [h1]
    simp [c3Row, pyTruthy, longDesc_isEmpty, firstEditText]
  rw [h2]
  have h3 : (Option.getD (some (("*" ++ c3Row.name ++ "* (`" ++ c3Row.code ++ "`)\n" ++
      "_Программа_: " ++ c3Row.program_name ++ "\n\n") ++ c3Row.description.getD "")) "").length =
      ("*" ++ c3Row.name ++ "* (`" ++ c3Row.code ++ "`)\n" ++
       "_Программа_: " ++ c3Row.program_name ++ "\n\n").length + (c3Row.description.getD "").length := by
    simp [String.length_append]
  rw [h3]
  have h4 : (c3Row.description.getD "").length = 4000 := longDesc_length
  rw [h4]
  exact lt_of_lt_of_le (by omega) (Nat.le_add_left 4000 _)

/-- Claim C9: a resolvable figure whose description is null or empty still
renders — the handler sends the header (name, code, program name) followed
by the fixed placeholder line, with the normal keyboard. -/
theorem cb_figure_placeholder_description (s : Store) (fid : Int) (row : FigureDetail)
    (h : fetch_figure s fid = some row) (hd : pyTruthy row.description = false) :
    (cb_figure s fid).snd =
      [Action.editText
        (("*" ++ row.name ++ "* (`" ++ row.code ++ "`)\n" ++
          "_Программа_: " ++ row.program_name ++ "\n\n") ++
         "Описание техники ещё не добавлено. Позже здесь будет подробный разбор по Лейрду.")
        (some [[InlineKeyboardButton.mk "⬅️ К списку фигур"
                  (some ("program:" ++ toString row.program_id)) none],
               [InlineKeyboardButton.mk "💳 Купить полный доступ" (some "buy") none]]),
       Action.answerCb none false] := by
  unfold cb_figure
  rw [h]
  simp [hd]

/-- Claim C9 witness: the null-description figure of the C9 fixture. -/
theorem cb_figure_placeholder_description_witness :
    fetch_figure c9Store 1 = some ⟨1, "f1", "Фигура 1", 10, "Самба", none⟩ ∧
    pyTruthy (none : Option String) = false ∧
    (cb_figure c9Store 1).snd =
      [Action.editText
        (("*" ++ "Фигура 1" ++ "* (`" ++ "f1" ++ "`)\n" ++
          "_Программа_: " ++ "Самба" ++ "\n\n") ++
         "Описание техники ещё не добавлено. Позже здесь будет подробный разбор по Лейрду.")
        (some [[InlineKeyboardButton.mk "⬅️ К списку фигур" (some "program:10") none],
               [InlineKeyboardButton.mk "💳 Купить полный доступ" (some "buy") none]]),
       Action.answerCb none false] :=
  ⟨rfl, rfl,
   cb_figure_placeholder_description c9Store 1
     ⟨1, "f1", "Фигура 1", 10, "Самба", none⟩ rfl rfl⟩

/-- Claim C5 (amended): the back-to-root token of the code is
`back:programs`, not `back:root`; handling it renders a screen that is a
function of the program table and the admin flag of the requesting user only —
two interactions whose stores agree on programs and whose users resolve to
the same admin flag produce identical render actions, regardless of any
other state (grants, other users, figures) accumulated along the prior
path. -/
theorem cb_back_programs_screen_determined (s1 s2 : Store) (tg1 tg2 : TgUser)
    (hp : s1.programs = s2.programs)
    (ha : ((get_or_create_user s1 tg1).snd).is_admin = ((get_or_create_user s2 tg2).snd).is_admin) :
    (cb_back_programs s1 tg1).snd = (cb_back_programs s2 tg2).snd := by
  have h1 : fetch_programs (get_or_create_user s1 tg1).fst = fetch_programs s2 := by
    unfold fetch_programs
    rw [get_or_create_user_programs, hp]
  have h2 : fetch_programs (get_or_create_user s2 tg2).fst = fetch_programs s2 := by
    unfold fetch_programs
    rw [get_or_create_user_programs]
  unfold cb_back_programs
  simp only [h1, h2, ha]

/-- Claim C5 witness: two stores with the same single program but
different histories — one has a user row and a recorded grant, the other
is untouched — render the same back-to-programs screen for user 100. -/
theorem cb_back_programs_screen_determined_witness :
    c5StoreA.programs = c5StoreB.programs ∧
    ((get_or_create_user c5StoreA tgUser100).snd).is_admin
      = ((get_or_create_user c5StoreB tgUser100).snd).is_admin ∧
    (cb_back_programs c5StoreA tgUser100).snd = (cb_back_programs c5StoreB tgUser100).snd :=
  ⟨rfl, rfl,
   cb_back_programs_screen_determined c5StoreA c5StoreB tgUser100 tgUser100 rfl rfl⟩

/-- Claim C5 counterexample: the payload `back:root` matches no handler of
the dispatch table — it produces no screen at all, rather than the
Root/ProgramList screen the claim describes. -/
theorem c5_back_root_unhandled_cex :
    dispatch_callback c5StoreA tgUser100 "back:root" = CbOutcome.unhandled := by
  decide

/-- Claim C8: configuration loading succeeds exactly when the bot
credential is present (non-empty), the store connection string is present
(non-empty) and its scheme is a recognized postgres scheme; on success the
connection string and credential are accepted unchanged, and in every
other case a `ValueError` aborts startup. -/
theorem load_config_fail_fast (bt du : Option String) :
    ((load_config bt du).isOk
      = (pyTruthy bt && pyTruthy du && recognizedScheme (du.getD ""))) ∧
    (∀ t url, bt = some t → du = some url →
      pyTruthy bt = true → recognizedScheme url = true →
      load_config bt du = Except.ok ⟨t, url⟩) := by
  constructor
  · rw [load_config_isOk_aux, validate_isOk, Bool.and_comm, Bool.and_assoc]
  · intro t url hbt hdu hb hr
    subst hbt
    subst hdu
    have hu : pyTruthy (some url) = true := by
      cases hE : url.isEmpty with
      | false => simp [pyTruthy, hE]
      | true =>
        exfalso
        have h0 : url = "" := (String.isEmpty_iff url).mp hE
        rw [h0] at hr
        exact absurd hr (by decide)
    have hv : validate_database_url (some url) = Except.ok url := by
      simp [validate_database_url, hu, hr]
    have hb2 : pyTruthy (some t) = true := hb
    simp [load_config, hv, hb2]

/-- Claim C8 witness: a present credential and a postgres DSN load
unchanged, matching the success condition. -/
theorem load_config_fail_fast_witness :
    ((load_config (some "123:ABC") (some "postgres://db.host:5432/app")).isOk
      = (pyTruthy (some "123:ABC") && pyTruthy (some "postgres://db.host:5432/app")
          && recognizedScheme ((some "postgres://db.host:5432/app").getD ""))) ∧
    load_config (some "123:ABC") (some "postgres://db.host:5432/app")
      = Except.ok ⟨"123:ABC", "postgres://db.host:5432/app"⟩ :=
  ⟨(load_config_fail_fast (some "123:ABC") (some "postgres://db.host:5432/app")).1,
   (load_config_fail_fast (some "123:ABC") (some "postgres://db.host:5432/app")).2
     "123:ABC" "postgres://db.host:5432/app" rfl rfl (by decide) (by decide)⟩

/-- Claim C10: the main-menu keyboard is exactly one button row per
program in list order, then the Buy row, then the About row, then the
Admin row exactly when the admin flag is set; in particular the Buy and
About rows are present for every program list, the empty one included. -/
theorem build_main_menu_kb_layout (programs : List ProgramRow) (is_admin : Bool) :
    build_main_menu_kb programs is_admin =
      (programs.map (fun p =>
        [InlineKeyboardButton.mk p.name (some ("program:" ++ toString p.id)) none]))
      ++ ([[InlineKeyboardButton.mk "💳 Купить полный доступ" (some "buy") none],
           [InlineKeyboardButton.mk "ℹ️ О боте" (some "about") none]]
      ++ (if is_admin then [[InlineKeyboardButton.mk "⚙️ Админка" (some "admin") none]] else [])) ∧
    [InlineKeyboardButton.mk "💳 Купить полный доступ" (some "buy") none]
      ∈ build_main_menu_kb programs is_admin ∧
    [InlineKeyboardButton.mk "ℹ️ О боте" (some "about") none]
      ∈ build_main_menu_kb programs is_admin ∧
    ([InlineKeyboardButton.mk "⚙️ Админка" (some "admin") none]
      ∈ build_main_menu_kb programs is_admin ↔ is_admin = true) := by
  refine ⟨by simp [build_main_menu_kb], ?_, ?_, ?_⟩
  · simp [build_main_menu_kb]
  · simp [build_main_menu_kb]
  · constructor
    · intro hmem
      unfold build_main_menu_kb at hmem
      rcases List.mem_append.mp hmem with hmem | hmem
      · rcases List.mem_append.mp hmem with hmem | hmem
        · rcases List.mem_append.mp hmem with hmem | hmem
          · rcases List.mem_map.mp hmem with ⟨p, _, heq⟩
            have hbtn : InlineKeyboardButton.mk p.name (some ("program:" ++ toString p.id)) none
                = InlineKeyboardButton.mk "⚙️ Админка" (some "admin") none := by
              injection heq
            have hcd := congrArg InlineKeyboardButton.callback_data hbtn
            simp only [] at hcd
            exact absurd (Option.some.inj hcd) (program_token_ne_admin (toString p.id))
          · simp at hmem
        · simp at hmem
      · cases is_admin with
        | true => rfl
        | false => simp at hmem
    · intro h
      subst h
      simp [build_main_menu_kb]

end DanceBot
